import Mathlib

/-!
Verification of the conversation-session and API-exchange core of the
chatbot repository, as a shallow embedding in Lean 4.

The embedding covers:
* `src/session.py` — the session store and history windowing
  (`Message`, `Session`, `create_session`, `add_message`,
  `get_history_for_api`, `get_message_count`, `clear_session`);
* `src/gemini_handler.py` — the remote chat client and the retry
  orchestration (`GeminiClient.chat`, `send_message`, `get_model`);
* `src/config.py` — credential lookup (`get_api_key`).

Modelling conventions:
* Python `int` becomes `Int`; timestamps and the nondeterministic parts
  of construction (`uuid`, `datetime.utcnow`) are explicit parameters.
* Python slicing `l[start:]` is modelled exactly, including the
  negative-index convention (`pySliceFrom`).
* Exceptions become `Except PyErr`; `PyErr.message` is Python `str(e)`.
* The HTTP world is a function from requests to responses; across the
  retry loop of `send_message` the outcome of the i-th invocation of
  `model.chat` is given by a function of the attempt index, making the
  nondeterminism of the network explicit.
-/

namespace Chatbot

/-! ## src/session.py -/

/-- Message dataclass of `src/session.py`: role, content, timestamp and an
optional token count (defaulting to `None`). -/
structure Message where
  role : String
  content : String
  timestamp : Nat
  token_count : Option Int
deriving Repr, DecidableEq

/-- Session dataclass of `src/session.py`: identifier, creation timestamp,
message log and running token total. -/
structure Session where
  session_id : String
  created_at : Nat
  messages : List Message
  total_tokens_used : Int
deriving Repr, DecidableEq

/-- The function `create_session` of `src/session.py`: a fresh session with an
empty log and a zero token total. The identifier (a uuid prefix in the
source) and the creation timestamp are passed in explicitly. -/
def create_session (sid : String) (now : Nat) : Session :=
  { session_id := sid, created_at := now, messages := [], total_tokens_used := 0 }

/-- The function `add_message` of `src/session.py`: appends
`Message(role=role, content=content)` — the `tokens` argument is not stored
on the message — and adds `tokens` to the running total. The timestamp the
message dataclass defaults to (`datetime.utcnow`) is passed in as `now`. -/
def add_message (s : Session) (role content : String) (tokens : Int) (now : Nat) : Session :=
  { s with
    messages := s.messages ++ [{ role := role, content := content,
                                 timestamp := now, token_count := none }],
    total_tokens_used := s.total_tokens_used + tokens }

/-- Python list slicing `l[start:]` for an arbitrary integer `start`:
a non-negative start drops `start` elements, a negative start keeps the
last `-start` elements (clamped). Note that `start = 0` — in particular
Python's `l[-0:]` — yields the whole list. -/
def pySliceFrom {α : Type} (l : List α) (start : Int) : List α :=
  if 0 ≤ start then l.drop start.toNat
  else l.drop (max 0 ((l.length : Int) + start)).toNat

/-- One `{"text": ...}` part of the Gemini wire format. -/
structure TextPart where
  text : String
deriving Repr, DecidableEq

/-- One `{"role": ..., "parts": [...]}` entry of the Gemini wire format,
as produced by `get_history_for_api`. -/
structure ApiMessage where
  role : String
  parts : List TextPart
deriving Repr, DecidableEq

/-- The role/text projection applied by `get_history_for_api` to each
stored message. -/
def toApiMessage (m : Message) : ApiMessage :=
  { role := m.role, parts := [{ text := m.content }] }

/-- The function `get_history_for_api` of `src/session.py`:
`session.messages[-(max_turns * 2):]` mapped to the API shape. -/
def get_history_for_api (s : Session) (max_turns : Int) : List ApiMessage :=
  (pySliceFrom s.messages (-(max_turns * 2))).map toApiMessage

/-- The function `get_message_count` of `src/session.py`. -/
def get_message_count (s : Session) : Nat :=
  s.messages.length

/-- The function `clear_session` of `src/session.py`: empties the log and
zeroes the total, leaving the other fields untouched. -/
def clear_session (s : Session) : Session :=
  { s with messages := [], total_tokens_used := 0 }

/-- One call to `add_message`: the arguments `role`, `content`, `tokens`
plus the timestamp the appended message receives. -/
structure AddOp where
  role : String
  content : String
  tokens : Int
  now : Nat
deriving Repr, DecidableEq

/-- A finite sequence of `add_message` calls applied to a session. -/
def applyAdds (s : Session) (ops : List AddOp) : Session :=
  ops.foldl (fun t op => add_message t op.role op.content op.tokens op.now) s

/-- Sessions reachable from `create_session` by `add_message` and
`clear_session` calls. -/
inductive Reachable : Session → Prop
  | create (sid : String) (now : Nat) : Reachable (create_session sid now)
  | add (s : Session) (role content : String) (tokens : Int) (now : Nat) :
      Reachable s → Reachable (add_message s role content tokens now)
  | clear (s : Session) : Reachable s → Reachable (clear_session s)

theorem applyAdds_total (s : Session) (ops : List AddOp) :
    (applyAdds s ops).total_tokens_used =
      s.total_tokens_used + (ops.map AddOp.tokens).sum := by
  induction ops generalizing s with
  | nil => simp [applyAdds]
  | cons op rest ih =>
      simp only [applyAdds, List.foldl_cons, List.map_cons, List.sum_cons]
      have h := ih (add_message s op.role op.content op.tokens op.now)
      simp only [applyAdds] at h
      rw [h]
      simp [add_message]
      ring

/-- C1: for every session returned by `create_session` and every finite
sequence of `add_message` calls, `total_tokens_used` equals the exact sum
of the `tokens` arguments passed (0 for a fresh session), accumulated one
append at a time; the right-hand sides mention only the `tokens`
arguments, so the total is independent of the roles and contents appended
and is never recomputed from the message log. -/
theorem C1_total_tokens_accumulated :
    (∀ (s : Session) (role content : String) (tokens : Int) (now : Nat),
        (add_message s role content tokens now).total_tokens_used =
          s.total_tokens_used + tokens) ∧
    (∀ (sid : String) (now : Nat) (ops : List AddOp),
        (applyAdds (create_session sid now) ops).total_tokens_used =
          (ops.map AddOp.tokens).sum) := by
  constructor
  · intro s role content tokens now
    simp [add_message]
  · intro sid now ops
    rw [applyAdds_total]
    simp [create_session]

/-- A session holding one message, used to exhibit the behaviour of the
history window at `max_turns = 0`. -/
def exSession : Session :=
  add_message (create_session "s" 0) "user" "hi" 0 1

/-- A session holding three messages, for instantiating the window
theorems at a log longer than the window. -/
def c2s : Session :=
  applyAdds (create_session "c" 0)
    [⟨"user", "q1", 0, 1⟩, ⟨"model", "a1", 5, 2⟩, ⟨"user", "q2", 0, 3⟩]

theorem length_toApiMessage_window (l : List Message) (k : Nat) :
    ((l.drop (l.length - k)).map toApiMessage).length ≤ k := by
  simp only [List.length_map, List.length_drop]
  omega

/-- C2 as stated is false: at `max_turns = 0` the slice
`messages[-(0 * 2):]` is `messages[0:]`, the whole log, so on a one-message
session the window returns 1 entry, exceeding the promised bound of
`2 * 0 = 0` entries. -/
theorem C2_counterexample :
    (get_history_for_api exSession 0).length = 1 ∧
      ¬ (get_history_for_api exSession 0).length ≤ 2 * 0 := by
  constructor
  · decide
  · decide

/-- C2 amended: for every session and every positive `max_turns`,
`get_history_for_api` returns at most `2 * max_turns` entries, exactly
the role/text projection of a suffix of `session.messages` in original
order, and the projection of the entire log whenever the log holds at
most `2 * max_turns` messages. (At `max_turns = 0` the code instead
returns the projection of the entire log; and being a pure function, the
call leaves the session unchanged.) -/
theorem C2_suffix_window (s : Session) (mt : Int) (h : 0 < mt) :
    (get_history_for_api s mt).length ≤ (mt * 2).toNat ∧
    get_history_for_api s mt =
      (s.messages.drop (s.messages.length - (mt * 2).toNat)).map toApiMessage ∧
    (s.messages.length ≤ (mt * 2).toNat →
      get_history_for_api s mt = s.messages.map toApiMessage) := by
  have hpos : (0 : Int) < mt * 2 := by linarith
  have hcast : ((mt * 2).toNat : Int) = mt * 2 := Int.toNat_of_nonneg (le_of_lt hpos)
  have hslice : pySliceFrom s.messages (-(mt * 2)) =
      s.messages.drop (s.messages.length - (mt * 2).toNat) := by
    unfold pySliceFrom
    rw [if_neg (by omega)]
    congr 1
    omega
  have heq : get_history_for_api s mt =
      (s.messages.drop (s.messages.length - (mt * 2).toNat)).map toApiMessage := by
    unfold get_history_for_api
    rw [hslice]
  refine ⟨?_, heq, ?_⟩
  · rw [heq]
    exact length_toApiMessage_window _ _
  · intro hlen
    rw [heq]
    have : s.messages.length - (mt * 2).toNat = 0 := by omega
    rw [this, List.drop_zero]

/-- Witness for the amended C2 at a three-message session and
`max_turns = 1`: the window keeps the last two messages. -/
theorem C2_suffix_window_witness :
    (0 : Int) < 1 ∧
      ((get_history_for_api c2s 1).length ≤ ((1 : Int) * 2).toNat ∧
       get_history_for_api c2s 1 =
         (c2s.messages.drop (c2s.messages.length - ((1 : Int) * 2).toNat)).map toApiMessage ∧
       (c2s.messages.length ≤ ((1 : Int) * 2).toNat →
         get_history_for_api c2s 1 = c2s.messages.map toApiMessage)) :=
  ⟨by decide, C2_suffix_window c2s 1 (by decide)⟩

/-- C10: every message stored in a reachable session has
`token_count = none` — `add_message` constructs the appended `Message`
from role and content only, so the `tokens` argument is never recorded on
the message itself. -/
theorem C10_token_count_none (s : Session) (h : Reachable s) :
    ∀ m ∈ s.messages, m.token_count = none := by
  induction h with
  | create sid now =>
      intro m hm
      simp [create_session] at hm
  | add s role content tokens now _ ih =>
      intro m hm
      simp only [add_message, List.mem_append, List.mem_singleton] at hm
      rcases hm with hm | hm
      · exact ih m hm
      · rw [hm]
  | clear s _ ih =>
      intro m hm
      simp [clear_session] at hm

/-- Witness for C10: a session built by one `create_session` and one
model-role `add_message` with 42 tokens is reachable, and its stored
message has `token_count = none`. -/
theorem C10_token_count_none_witness :
    Reachable (add_message (create_session "w" 0) "model" "hello" 42 1) ∧
      (Message.mk "model" "hello" 1 none).token_count = none := by
  have hr : Reachable (add_message (create_session "w" 0) "model" "hello" 42 1) :=
    Reachable.add _ _ _ _ _ (Reachable.create "w" 0)
  exact ⟨hr, C10_token_count_none _ hr _ (by decide)⟩

/-- C6: `clear_session` empties the log and zeroes the running total while
preserving `session_id` and `created_at`; after a clear,
`get_message_count` returns 0 (and, being a pure observation, keeps
returning 0 however often it is called, until the next `add_message`). -/
theorem C6_clear_preserves_identity (s : Session) :
    (clear_session s).messages = [] ∧
    (clear_session s).total_tokens_used = 0 ∧
    (clear_session s).session_id = s.session_id ∧
    (clear_session s).created_at = s.created_at ∧
    get_message_count (clear_session s) = 0 := by
  refine ⟨rfl, rfl, rfl, rfl, ?_⟩
  simp [get_message_count, clear_session]

/-! ## src/config.py and src/gemini_handler.py

Python exceptions are modelled by `PyErr`; `PyErr.message` is what
`str(e)` returns for these exception classes. The HTTP layer is a pure
function from requests to responses; `None` in `jsonBody` stands for a
body `resp.json()` fails to parse. The two distinct Python exceptions
raised when `candidates[0]["content"]["parts"][0]` is missing (KeyError
for an absent key, IndexError for an empty list) are collapsed into one
`indexErr`, since no behaviour of the program depends on which of the two
is raised. -/

/-- Python exception classes the embedded code raises. -/
inductive PyErr where
  | environmentErr (msg : String)
  | runtimeErr (msg : String)
  | jsonDecodeErr (msg : String)
  | indexErr (msg : String)
deriving Repr, DecidableEq

/-- Python `str(e)`: the message these exception classes carry. -/
def PyErr.message : PyErr → String
  | .environmentErr m => m
  | .runtimeErr m => m
  | .jsonDecodeErr m => m
  | .indexErr m => m

/-- Whether `pat` matches at the head of `s` (character-wise). -/
def strHeadMatch : List Char → List Char → Bool
  | [], _ => true
  | _ :: _, [] => false
  | a :: pa, b :: pb => a == b && strHeadMatch pa pb

/-- Whether `pat` occurs at some position of `s`. -/
def containsFrom (pat : List Char) : List Char → Bool
  | [] => strHeadMatch pat []
  | c :: rest => strHeadMatch pat (c :: rest) || containsFrom pat rest

/-- Python's substring test `pat in s` on strings. -/
def pyIn (pat s : String) : Bool :=
  containsFrom pat.toList s.toList

/-- The `generationConfig` dict built by `get_model` of
`src/gemini_handler.py` (the two sampling parameters are floats in the
source, rationals here). -/
structure GenConfig where
  maxOutputTokens : Int
  temperature : Rat
  topP : Rat
  topK : Int
deriving Repr, DecidableEq

/-- The GeminiClient class of `src/gemini_handler.py`: immutable
per-connection configuration. -/
structure GeminiClient where
  api_key : String
  model_name : String
  system_prompt : String
  gen_config : GenConfig
deriving Repr, DecidableEq

/-- The request body `chat` posts: contents, systemInstruction and
generationConfig. -/
structure Payload where
  contents : List ApiMessage
  systemInstruction : List TextPart
  generationConfig : GenConfig
deriving Repr, DecidableEq

/-- One outbound HTTP request: the URL (with the model name and the
query-string credential) and the JSON payload. -/
structure GeminiRequest where
  url : String
  payload : Payload
deriving Repr, DecidableEq

/-- The JSON body of a response, when it parses: the `error.message`
field when present, the `candidates[i].content.parts` lists, and
`usageMetadata.totalTokenCount` when present. -/
structure RespJson where
  errorMessage : Option String
  candidates : List (List TextPart)
  usageTotalTokenCount : Option Int
deriving Repr, DecidableEq

/-- An HTTP response as `chat` observes it: status code, parsed JSON body
(`none` when `resp.json()` raises), and the raw body text. -/
structure GeminiResponse where
  status_code : Nat
  jsonBody : Option RespJson
  text : String
deriving Repr, DecidableEq

/-- The result dict a successful `chat` returns. -/
structure ChatRes where
  text : String
  tokens : Int
deriving Repr, DecidableEq

/-- The module-level BASE constant of `src/gemini_handler.py`. -/
def BASE : String := "https://generativelanguage.googleapis.com/v1beta"

/-- Message raised by `resp.json()` on an unparseable body. -/
def jsonDecodeMsg : String := "Expecting value: line 1 column 1 (char 0)"

/-- Text extracted from one history entry by `chat`:
`parts[0].get("text", "")` when `parts` is a nonempty list of dicts,
otherwise `str(parts)` (which is `"[]"` for the empty list, the only
ill-formed shape expressible in this typed model). -/
def historyEntryText (parts : List TextPart) : String :=
  match parts with
  | [] => "[]"
  | p :: _ => p.text

/-- The method `GeminiClient.chat` of `src/gemini_handler.py`: serializes
history plus the new user message into `contents`, posts the payload, and
either raises (non-200 status, unparseable body, missing candidate) or
returns the candidate text with the reported usage count. -/
def GeminiClient.chat (c : GeminiClient) (endpoint : GeminiRequest → GeminiResponse)
    (user_message : String) (history : List ApiMessage) : Except PyErr ChatRes :=
  let contents : List ApiMessage :=
    history.map (fun msg =>
      { role := msg.role, parts := [{ text := historyEntryText msg.parts }] }) ++
    [{ role := "user", parts := [{ text := user_message }] }]
  let payload : Payload :=
    { contents := contents,
      systemInstruction := [{ text := c.system_prompt }],
      generationConfig := c.gen_config }
  let url := BASE ++ "/models/" ++ c.model_name ++ ":generateContent?key=" ++ c.api_key
  let resp := endpoint { url := url, payload := payload }
  if resp.status_code ≠ 200 then
    match resp.jsonBody with
    | none => .error (.jsonDecodeErr jsonDecodeMsg)
    | some j =>
        .error (.runtimeErr
          ("HTTP " ++ toString resp.status_code ++ ": " ++ j.errorMessage.getD resp.text))
  else
    match resp.jsonBody with
    | none => .error (.jsonDecodeErr jsonDecodeMsg)
    | some j =>
        match j.candidates with
        | [] => .error (.indexErr "list index out of range")
        | cand :: _ =>
            match cand with
            | [] => .error (.indexErr "list index out of range")
            | p :: _ => .ok { text := p.text, tokens := j.usageTotalTokenCount.getD 0 }

/-- The message of the EnvironmentError raised by `get_api_key` of
`src/config.py`. -/
def apiKeyMissingMsg : String :=
  "GEMINI_API_KEY environment variable is not set. Please set it in your .env file or system environment."

/-- The function `get_api_key` of `src/config.py`: `os.getenv` is the
`env` argument (`none` when the variable is unset); `if not api_key`
catches both the unset and the empty-string case. -/
def get_api_key (env : Option String) : Except PyErr String :=
  match env with
  | none => .error (.environmentErr apiKeyMissingMsg)
  | some k =>
      if k = "" then .error (.environmentErr apiKeyMissingMsg) else .ok k

/-- The function `get_model` of `src/gemini_handler.py`: reads the
credential first (an EnvironmentError from `get_api_key` propagates), then
builds the client from the configured model name, system prompt and
generation parameters. The second component counts the HTTP requests
issued during construction; the source body performs none, so it is 0 on
every path. -/
def get_model (env : Option String) (model_name system_prompt : String)
    (gen_config : GenConfig) : Except PyErr GeminiClient × Nat :=
  match get_api_key env with
  | .error e => (.error e, 0)
  | .ok k =>
      (.ok { api_key := k, model_name := model_name,
             system_prompt := system_prompt, gen_config := gen_config }, 0)

/-- The uniform result dict `send_message` returns. -/
structure Envelope where
  text : Option String
  tokens_used : Int
  success : Bool
  error : Option String
deriving Repr, DecidableEq

/-- One run of `send_message`, together with its observable effects: the
number of `model.chat` invocations and the list of `time.sleep` durations
(in seconds). -/
structure SendOutcome where
  envelope : Envelope
  calls : Nat
  sleeps : List Nat
deriving Repr, DecidableEq

/-- The envelope of the guard return after the attempt loop. -/
def maxRetriesEnvelope : Envelope :=
  { text := none, tokens_used := 0, success := false, error := some "Max retries exceeded." }

/-- The attempt loop of `send_message`: `fuel` is the number of loop
iterations left (`len(range(max_retries + 1))` at the top), `attempt` the
current loop index. `chatAttempt i` is the outcome of the i-th invocation
of `model.chat(user_message, chat_history)` — a function of the attempt
index because the network may answer each identical request differently. -/
def sendLoop (chatAttempt : Nat → Except PyErr ChatRes) (max_retries : Int) :
    Nat → Nat → SendOutcome
  | 0, _ => { envelope := maxRetriesEnvelope, calls := 0, sleeps := [] }
  | fuel + 1, attempt =>
      match chatAttempt attempt with
      | .ok r =>
          { envelope := { text := some r.text, tokens_used := r.tokens,
                          success := true, error := none },
            calls := 1, sleeps := [] }
      | .error e =>
          let err := e.message
          if (attempt : Int) < max_retries ∧
              (pyIn "429" err = true ∨ pyIn "503" err = true) then
            let rest := sendLoop chatAttempt max_retries fuel (attempt + 1)
            { envelope := rest.envelope, calls := rest.calls + 1,
              sleeps := 2 ^ attempt :: rest.sleeps }
          else
            { envelope := { text := none, tokens_used := 0,
                            success := false, error := some err },
              calls := 1, sleeps := [] }

/-- The function `send_message` of `src/gemini_handler.py`:
`for attempt in range(max_retries + 1)` runs `(max_retries + 1).toNat`
iterations starting at attempt 0 (so a negative `max_retries` skips the
loop and falls through to the guard return). -/
def send_message (chatAttempt : Nat → Except PyErr ChatRes) (max_retries : Int) : SendOutcome :=
  sendLoop chatAttempt max_retries (max_retries + 1).toNat 0

theorem strHeadMatch_same (l : List Char) : strHeadMatch l l = true := by
  induction l with
  | nil => rfl
  | cons a as ih => simp [strHeadMatch, ih]

theorem pyIn_same (s : String) : pyIn s s = true := by
  unfold pyIn
  cases h : s.toList with
  | nil => simp [containsFrom, strHeadMatch]
  | cons c rest =>
      simp only [containsFrom, Bool.or_eq_true]
      left
      exact strHeadMatch_same (c :: rest)

/-- A concrete exchange behaviour: rate-limited twice, then a success. -/
def c3Chat : Nat → Except PyErr ChatRes :=
  fun i =>
    if i < 2 then .error (.runtimeErr "HTTP 429: Resource has been exhausted")
    else .ok { text := "fine", tokens := 7 }

/-- C3: when the exchange raises a rate-limit error (description
containing "429") on the first two invocations and succeeds on the third
with text `t` and usage `n`, `send_message` with the default budget of 2
additional attempts calls the exchange exactly three times, sleeps 1 then
2 seconds between attempts, and returns the success envelope carrying `t`
and `n`. -/
theorem C3_retry_on_429 (chatAttempt : Nat → Except PyErr ChatRes)
    (e0 e1 : PyErr) (t : String) (n : Int)
    (h0 : chatAttempt 0 = .error e0) (h0r : pyIn "429" e0.message = true)
    (h1 : chatAttempt 1 = .error e1) (h1r : pyIn "429" e1.message = true)
    (h2 : chatAttempt 2 = .ok { text := t, tokens := n }) :
    send_message chatAttempt 2 =
      { envelope := { text := some t, tokens_used := n, success := true, error := none },
        calls := 3, sleeps := [1, 2] } := by
  have c0 : ((0 : Nat) : Int) < 2 ∧
      (pyIn "429" e0.message = true ∨ pyIn "503" e0.message = true) :=
    ⟨by norm_num, Or.inl h0r⟩
  have c1 : ((1 : Nat) : Int) < 2 ∧
      (pyIn "429" e1.message = true ∨ pyIn "503" e1.message = true) :=
    ⟨by norm_num, Or.inl h1r⟩
  have hfuel : ((2 : Int) + 1).toNat = 3 := by decide
  unfold send_message
  rw [hfuel]
  rw [show (3 : Nat) = 2 + 1 from rfl, sendLoop, h0]
  dsimp only
  rw [if_pos c0]
  rw [show (2 : Nat) = 1 + 1 from rfl, sendLoop, h1]
  dsimp only
  rw [if_pos c1]
  rw [show (1 : Nat) = 0 + 1 from rfl, sendLoop, h2]
  simp

/-- Witness for C3 at the concrete behaviour `c3Chat`. -/
theorem C3_retry_on_429_witness :
    c3Chat 0 = .error (.runtimeErr "HTTP 429: Resource has been exhausted") ∧
    pyIn "429" (PyErr.runtimeErr "HTTP 429: Resource has been exhausted").message = true ∧
    c3Chat 1 = .error (.runtimeErr "HTTP 429: Resource has been exhausted") ∧
    c3Chat 2 = .ok { text := "fine", tokens := 7 } ∧
    send_message c3Chat 2 =
      { envelope := { text := some "fine", tokens_used := 7, success := true, error := none },
        calls := 3, sleeps := [1, 2] } :=
  ⟨rfl, by decide, rfl, rfl,
    C3_retry_on_429 c3Chat _ _ "fine" 7 rfl (by decide) rfl (by decide) rfl⟩

theorem sendLoop_envelope_shape (chatAttempt : Nat → Except PyErr ChatRes)
    (max_retries : Int) (fuel attempt : Nat) :
    ((sendLoop chatAttempt max_retries fuel attempt).envelope.success = true ∧
     (sendLoop chatAttempt max_retries fuel attempt).envelope.error = none) ∨
    ((sendLoop chatAttempt max_retries fuel attempt).envelope.success = false ∧
     (sendLoop chatAttempt max_retries fuel attempt).envelope.text = none ∧
     (sendLoop chatAttempt max_retries fuel attempt).envelope.tokens_used = 0 ∧
     (sendLoop chatAttempt max_retries fuel attempt).envelope.error ≠ none) := by
  induction fuel generalizing attempt with
  | zero =>
      right
      refine ⟨rfl, rfl, rfl, ?_⟩
      simp [sendLoop, maxRetriesEnvelope]
  | succ f ih =>
      rw [sendLoop]
      cases hcall : chatAttempt attempt with
      | ok r => exact Or.inl ⟨rfl, rfl⟩
      | error e =>
          dsimp only
          by_cases hc : (attempt : Int) < max_retries ∧
              (pyIn "429" e.message = true ∨ pyIn "503" e.message = true)
          · rw [if_pos hc]
            exact ih (attempt + 1)
          · rw [if_neg hc]
            exact Or.inr ⟨rfl, rfl, rfl, by simp⟩

/-- C4: `send_message` never propagates an exception — its result is
always one total `Envelope` value with exactly the four fields, a success
envelope carrying no error or a failure envelope with empty text and zero
tokens and a present error; and when the attempt loop runs zero
iterations (a negative retry budget, the guarded should-not-occur path)
the returned envelope is the generic "Max retries exceeded." failure. -/
theorem C4_uniform_envelope (chatAttempt : Nat → Except PyErr ChatRes) (max_retries : Int) :
    (((send_message chatAttempt max_retries).envelope.success = true ∧
      (send_message chatAttempt max_retries).envelope.error = none) ∨
     ((send_message chatAttempt max_retries).envelope.success = false ∧
      (send_message chatAttempt max_retries).envelope.text = none ∧
      (send_message chatAttempt max_retries).envelope.tokens_used = 0 ∧
      (send_message chatAttempt max_retries).envelope.error ≠ none)) ∧
    (max_retries + 1 ≤ 0 →
      (send_message chatAttempt max_retries).envelope = maxRetriesEnvelope) := by
  constructor
  · exact sendLoop_envelope_shape chatAttempt max_retries _ 0
  · intro hneg
    unfold send_message
    rw [show (max_retries + 1).toNat = 0 by omega]
    rfl

/-- Witness for C4 at a negative retry budget. -/
theorem C4_uniform_envelope_witness :
    ((-1 : Int) + 1 ≤ 0) ∧
      (send_message (fun _ => Except.ok { text := "ok", tokens := 3 }) (-1)).envelope =
        maxRetriesEnvelope :=
  ⟨by decide, (C4_uniform_envelope (fun _ => Except.ok { text := "ok", tokens := 3 }) (-1)).2
    (by decide)⟩

/-- A concrete exchange behaviour: a permanent permission failure. -/
def c5Chat : Nat → Except PyErr ChatRes :=
  fun _ => .error (.runtimeErr "HTTP 403: Permission denied")

/-- C5: when the first invocation of the exchange raises an error whose
description indicates neither rate limiting ("429") nor unavailability
("503"), `send_message` (with any non-negative retry budget, in
particular the default 2) calls the exchange exactly once, sleeps never,
and returns a failure envelope with zero tokens whose error description
contains the raised error's message. -/
theorem C5_permanent_no_retry (chatAttempt : Nat → Except PyErr ChatRes)
    (e : PyErr) (max_retries : Int) (hmr : 0 ≤ max_retries)
    (h0 : chatAttempt 0 = .error e)
    (h429 : pyIn "429" e.message = false) (h503 : pyIn "503" e.message = false) :
    send_message chatAttempt max_retries =
      { envelope := { text := none, tokens_used := 0, success := false,
                      error := some e.message },
        calls := 1, sleeps := [] } ∧
    ∃ s, (some e.message : Option String) = some s ∧ pyIn e.message s = true := by
  constructor
  · obtain ⟨k, hk⟩ : ∃ k, (max_retries + 1).toNat = k + 1 :=
      ⟨max_retries.toNat, by omega⟩
    unfold send_message
    rw [hk, sendLoop, h0]
    dsimp only
    rw [if_neg (by simp [h429, h503])]
  · exact ⟨e.message, rfl, pyIn_same e.message⟩

/-- Witness for C5 at the concrete 403 behaviour `c5Chat` with the
default retry budget. -/
theorem C5_permanent_no_retry_witness :
    (0 : Int) ≤ 2 ∧
    c5Chat 0 = .error (.runtimeErr "HTTP 403: Permission denied") ∧
    pyIn "429" (PyErr.runtimeErr "HTTP 403: Permission denied").message = false ∧
    pyIn "503" (PyErr.runtimeErr "HTTP 403: Permission denied").message = false ∧
    (send_message c5Chat 2 =
      { envelope := { text := none, tokens_used := 0, success := false,
                      error := some (PyErr.runtimeErr "HTTP 403: Permission denied").message },
        calls := 1, sleeps := [] } ∧
     ∃ s, (some (PyErr.runtimeErr "HTTP 403: Permission denied").message : Option String) =
            some s ∧
          pyIn (PyErr.runtimeErr "HTTP 403: Permission denied").message s = true) :=
  ⟨by decide, rfl, by decide, by decide,
    C5_permanent_no_retry c5Chat _ 2 (by decide) rfl (by decide) (by decide)⟩

/-- C7: when `GEMINI_API_KEY` is unset or empty, `get_model` propagates
the EnvironmentError of `get_api_key` — the client is never constructed —
and, as on every path of its body, issues zero HTTP requests; when the
variable holds a nonempty value `k`, `get_api_key` returns `k` and
construction proceeds to a client carrying `k`. -/
theorem C7_missing_key (env : Option String) (model_name system_prompt : String)
    (gc : GenConfig) :
    ((env = none ∨ env = some "") →
      get_model env model_name system_prompt gc =
        (.error (.environmentErr apiKeyMissingMsg), 0)) ∧
    (get_model env model_name system_prompt gc).2 = 0 ∧
    (∀ k, env = some k → k ≠ "" →
      get_api_key env = .ok k ∧
      get_model env model_name system_prompt gc =
        (.ok { api_key := k, model_name := model_name,
               system_prompt := system_prompt, gen_config := gc }, 0)) := by
  refine ⟨?_, ?_, ?_⟩
  · rintro (h | h) <;> subst h <;> simp [get_model, get_api_key]
  · cases env with
    | none => rfl
    | some k =>
        by_cases hk : k = "" <;> simp [get_model, get_api_key, hk]
  · rintro k rfl hk
    simp [get_model, get_api_key, hk]

/-- Witness for C7: the unset-variable case and a present nonempty key. -/
theorem C7_missing_key_witness :
    ((none : Option String) = none ∨ (none : Option String) = some "") ∧
    get_model none "gemini-2.5-flash" "sys" ⟨1024, 7/10, 9/10, 40⟩ =
      (.error (.environmentErr apiKeyMissingMsg), 0) ∧
    ((some "AIza" : Option String) = some "AIza") ∧ ("AIza" : String) ≠ "" ∧
    get_api_key (some "AIza") = .ok "AIza" ∧
    get_model (some "AIza") "gemini-2.5-flash" "sys" ⟨1024, 7/10, 9/10, 40⟩ =
      (.ok { api_key := "AIza", model_name := "gemini-2.5-flash",
             system_prompt := "sys", gen_config := ⟨1024, 7/10, 9/10, 40⟩ }, 0) := by
  have h1 := (C7_missing_key none "gemini-2.5-flash" "sys" ⟨1024, 7/10, 9/10, 40⟩).1
    (Or.inl rfl)
  have h2 := (C7_missing_key (some "AIza") "gemini-2.5-flash" "sys"
    ⟨1024, 7/10, 9/10, 40⟩).2.2 "AIza" rfl (by decide)
  exact ⟨Or.inl rfl, h1, rfl, by decide, h2.1, h2.2⟩

/-- A concrete client configuration for instantiating the exchange
theorems. -/
def client0 : GeminiClient :=
  { api_key := "k", model_name := "gemini-2.5-flash",
    system_prompt := "You are a helpful career assistant.",
    gen_config := { maxOutputTokens := 1024, temperature := 7/10, topP := 9/10, topK := 40 } }

/-- A response with the successful-creation status 201: inside the 2xx
class but not equal to 200. -/
def resp201 : GeminiResponse :=
  { status_code := 201,
    jsonBody := some { errorMessage := some "Created",
                       candidates := [[{ text := "hello" }]],
                       usageTotalTokenCount := some 5 },
    text := "raw body" }

/-- A 404 response whose parsed body has no `error.message` field. -/
def resp404 : GeminiResponse :=
  { status_code := 404,
    jsonBody := some { errorMessage := none, candidates := [],
                       usageTotalTokenCount := none },
    text := "not found body" }

/-- C8 as stated is false: `chat` checks `status_code != 200`, not the
2xx success class, so a well-formed 201 response — inside the 2xx class —
is treated as a failure and raises. -/
theorem C8_counterexample :
    GeminiClient.chat client0 (fun _ => resp201) "hi" [] =
      .error (.runtimeErr "HTTP 201: Created") ∧
    200 ≤ resp201.status_code ∧ resp201.status_code < 300 :=
  ⟨rfl, by decide, by decide⟩

/-- C8 amended: `chat` treats a response as a failure exactly when its
status code differs from 200. On such a response with a parseable body it
raises an error carrying the status code and the body's `error.message`
field, or the raw body when that field is absent; with an unparseable
body it raises the JSON decode error instead. For a 200 response whose
body parses and holds a first candidate with a first part, it returns
that part's text and the reported usage count (0 when absent) without
raising. -/
theorem C8_non200_failure (c : GeminiClient) (r : GeminiResponse)
    (m : String) (hist : List ApiMessage) :
    (∀ j, r.status_code ≠ 200 → r.jsonBody = some j →
      GeminiClient.chat c (fun _ => r) m hist =
        .error (.runtimeErr
          ("HTTP " ++ toString r.status_code ++ ": " ++ j.errorMessage.getD r.text))) ∧
    (r.status_code ≠ 200 → r.jsonBody = none →
      GeminiClient.chat c (fun _ => r) m hist = .error (.jsonDecodeErr jsonDecodeMsg)) ∧
    (∀ j p ps cs, r.status_code = 200 → r.jsonBody = some j →
      j.candidates = (p :: ps) :: cs →
      GeminiClient.chat c (fun _ => r) m hist =
        .ok { text := p.text, tokens := j.usageTotalTokenCount.getD 0 }) := by
  refine ⟨?_, ?_, ?_⟩
  · intro j hne hj
    unfold GeminiClient.chat
    rw [if_pos hne, hj]
  · intro hne hj
    unfold GeminiClient.chat
    rw [if_pos hne, hj]
  · intro j p ps cs h200 hj hcand
    unfold GeminiClient.chat
    rw [if_neg (by simp [h200]), hj]
    dsimp only
    rw [hcand]

/-- Witness for the amended C8 at the 404 response with no
`error.message` field: the raw body becomes the description. -/
theorem C8_non200_failure_witness :
    resp404.status_code ≠ 200 ∧
    resp404.jsonBody =
      some { errorMessage := none, candidates := [], usageTotalTokenCount := none } ∧
    GeminiClient.chat client0 (fun _ => resp404) "q" [] =
      .error (.runtimeErr
        ("HTTP " ++ toString resp404.status_code ++ ": " ++
          Option.getD (none : Option String) resp404.text)) :=
  ⟨by decide, rfl,
    (C8_non200_failure client0 resp404 "q" []).1
      { errorMessage := none, candidates := [], usageTotalTokenCount := none }
      (by decide) rfl⟩

/-- A deterministic endpoint for instantiating the idempotence theorem:
echoes the length of the request payload. -/
def echoEndpoint : GeminiRequest → GeminiResponse :=
  fun req =>
    { status_code := 200,
      jsonBody := some { errorMessage := none,
                         candidates := [[{ text := "echo" }]],
                         usageTotalTokenCount := some (req.payload.contents.length : Int) },
      text := "" }

/-- C9: against a deterministic endpoint (the response a pure function of
the request), two invocations of `chat` — and of `send_message` running
`chat` on each attempt — with identical user message and identical
history yield identical results, text and `tokens_used` included: in the
embedding the exchange is a pure function of the client, the endpoint and
the two arguments. -/
theorem C9_deterministic_exchange (c : GeminiClient)
    (endpoint : GeminiRequest → GeminiResponse)
    (m1 m2 : String) (h1 h2 : List ApiMessage) (max_retries : Int)
    (hm : m1 = m2) (hh : h1 = h2) :
    GeminiClient.chat c endpoint m1 h1 = GeminiClient.chat c endpoint m2 h2 ∧
    send_message (fun _ => GeminiClient.chat c endpoint m1 h1) max_retries =
      send_message (fun _ => GeminiClient.chat c endpoint m2 h2) max_retries := by
  subst hm
  subst hh
  exact ⟨rfl, rfl⟩

/-- Witness for C9 at a concrete client, endpoint, message and history. -/
theorem C9_deterministic_exchange_witness :
    ("hello" : String) = "hello" ∧
    ([⟨"user", [⟨"hi"⟩]⟩] : List ApiMessage) = [⟨"user", [⟨"hi"⟩]⟩] ∧
    (GeminiClient.chat client0 echoEndpoint "hello" [⟨"user", [⟨"hi"⟩]⟩] =
       GeminiClient.chat client0 echoEndpoint "hello" [⟨"user", [⟨"hi"⟩]⟩] ∧
     send_message (fun _ => GeminiClient.chat client0 echoEndpoint "hello"
         [⟨"user", [⟨"hi"⟩]⟩]) 2 =
       send_message (fun _ => GeminiClient.chat client0 echoEndpoint "hello"
         [⟨"user", [⟨"hi"⟩]⟩]) 2) :=
  ⟨rfl, rfl,
    C9_deterministic_exchange client0 echoEndpoint "hello" "hello"
      [⟨"user", [⟨"hi"⟩]⟩] [⟨"user", [⟨"hi"⟩]⟩] 2 rfl rfl⟩

end Chatbot
